import Mathlib

/-!
Verification of the SLO/SLA monitoring dashboard core
(`src/slo_monitor.py`, class `SLOMonitor`).

The pure evaluation logic of the program is embedded shallowly:

* the error-budget arithmetic of `simulate_measurements`
  (lines 137-142) as `error_budget_calc` and `simulate_measurements`;
* the burn-rate estimator `calculate_burn_rate` (lines 162-186) as
  `calculate_burn_rate` over the fetched list of
  `error_budget_remaining` samples;
* the alert decision logic `check_slo_alerts` (lines 188-227) as
  `check_slo_alerts`, threading the append-only `slo_alerts` log;
* the bootstrap `define_slos` (lines 73-117) as `define_slos` acting on
  the `slo_definitions` table (INSERT ... ON CONFLICT (slo_id) DO
  NOTHING) and the in-memory `self.slos` dict.

Python floats are modelled as exact rationals (ℚ); Python `int()`
truncation toward zero is `pytrunc`; a Python `ZeroDivisionError` is the
explicit `CalcError.zeroDivision` value of an `Except` result.
-/

/-- The error outcome of the numeric core: Python raises
`ZeroDivisionError` when a divisor is zero; no other exception is
raised by the embedded lines. -/
inductive CalcError where
  | zeroDivision
deriving DecidableEq

/-- One row of the `slo_measurements` insert together with the dict
returned by `simulate_measurements` (keys `slo_id`, `current_slo`,
`target`, `error_budget`, `success_count`, `total_count`). -/
structure Measurement where
  slo_id : String
  current_slo : ℚ
  target : ℚ
  error_budget : ℚ
  success_count : ℤ
  total_count : ℤ
deriving DecidableEq

/-- The error-budget arithmetic of `simulate_measurements`, lines
137-142, generalized over the three numeric inputs it reads
(`target`, `total`, `successes`):

    current_slo = (successes / total) * 100
    allowed_errors = total * (1 - target / 100)
    actual_errors = total - successes
    error_budget_remaining = ((allowed_errors - actual_errors) / allowed_errors) * 100

A zero divisor raises (Python `ZeroDivisionError`); there is no other
validation in the source. -/
def error_budget_calc (target total success : ℚ) : Except CalcError (ℚ × ℚ) :=
  if total = 0 then .error .zeroDivision
  else
    let current_slo := success / total * 100
    let allowed_errors := total * (1 - target / 100)
    let actual_errors := total - success
    if allowed_errors = 0 then .error .zeroDivision
    else .ok (current_slo, (allowed_errors - actual_errors) / allowed_errors * 100)

/-- Python `int()` on a rational: truncation toward zero. -/
def pytrunc (q : ℚ) : ℤ := if 0 ≤ q then ⌊q⌋ else ⌈q⌉

/-- `simulate_measurements(slo_id, success_rate)`, lines 119-160.
`total = 1000`; `successes = int(total * (success_rate / 100))`.  The
`target` is the value fetched from `slo_definitions` for `slo_id`
(I/O, so passed explicitly here); the resulting dict is the returned
`Measurement`. -/
def simulate_measurements (slo_id : String) (target success_rate : ℚ)
    : Except CalcError Measurement :=
  let total : ℤ := 1000
  let successes : ℤ := pytrunc ((total : ℚ) * (success_rate / 100))
  match error_budget_calc target (total : ℚ) (successes : ℚ) with
  | .error e => .error e
  | .ok (current_slo, error_budget_remaining) =>
      .ok ⟨slo_id, current_slo, target, error_budget_remaining, successes, total⟩

/-- `calculate_burn_rate`, lines 162-186, over the list of
`error_budget_remaining` values fetched (ascending by timestamp) for
the last hour:

    if len(measurements) < 2: return 0.0
    budget_change = measurements[0] - measurements[-1]
    burn_rate = budget_change / len(measurements)
-/
def calculate_burn_rate (measurements : List ℚ) : ℚ :=
  if measurements.length < 2 then 0
  else (measurements.headD 0 - measurements.getLastD 0) / (measurements.length : ℚ)

/-- Tags the three distinct insert sites of `check_slo_alerts`
(distinguished in the source by their message templates
`SLO below target: ...`, `Error budget low: ...`,
`High error budget burn rate: ...`). -/
inductive AlertKind where
  | targetViolation
  | budgetLow
  | burnRateHigh
deriving DecidableEq

/-- One row inserted into `slo_alerts`: the source stores the severity
as the literal string passed to the INSERT. -/
structure Alert where
  slo_id : String
  severity : String
  burn_rate : ℚ
  kind : AlertKind
deriving DecidableEq

/-- `check_slo_alerts(measurement)`, lines 188-227.  Reads the fields
of the measurement dict, then performs up to three independent
INSERTs into the append-only `slo_alerts` table (modelled as the
`log` list); the burn rate for the third check is computed by
`calculate_burn_rate` over the fetched history. -/
def check_slo_alerts (m : Measurement) (history : List ℚ) (log : List Alert)
    : List Alert :=
  let current := m.current_slo
  let target := m.target
  let error_budget := m.error_budget
  let log1 := if current < target
    then log ++ [⟨m.slo_id, "high", 0, .targetViolation⟩] else log
  let log2 := if error_budget < 20
    then
      let severity := if error_budget < 10 then "critical" else "high"
      log1 ++ [⟨m.slo_id, severity, 0, .budgetLow⟩]
    else log1
  let burn_rate := calculate_burn_rate history
  let log3 := if burn_rate > 5
    then log2 ++ [⟨m.slo_id, "critical", burn_rate, .burnRateHigh⟩] else log2
  log3

/-- One entry of the `slos` list in `define_slos`, lines 77-102. -/
structure SLODef where
  slo_id : String
  service_name : String
  slo_type : String
  target : ℚ
  window : ℕ
  description : String
deriving DecidableEq

def slo_db_availability : SLODef :=
  ⟨"db-availability", "database", "availability", 999/10, 720,
   "Database must be available 99.9% of time"⟩

def slo_query_latency : SLODef :=
  ⟨"query-latency", "database", "latency", 95, 168,
   "95% of queries must complete in < 100ms"⟩

def slo_api_success_rate : SLODef :=
  ⟨"api-success-rate", "api", "success_rate", 995/10, 168,
   "99.5% of API requests must succeed"⟩

/-- The fixed catalog defined by `define_slos`. -/
def slos_catalog : List SLODef :=
  [slo_db_availability, slo_query_latency, slo_api_success_rate]

/-- Whether the `slo_definitions` table (kept in insertion order)
already holds a row with the given primary key. -/
def hasKey (reg : List SLODef) (id : String) : Bool :=
  reg.any fun d => d.slo_id == id

/-- `INSERT ... ON CONFLICT (slo_id) DO NOTHING` (line 110): a row
whose key is present leaves the table untouched, otherwise the row is
appended. -/
def registry_insert (reg : List SLODef) (d : SLODef) : List SLODef :=
  if hasKey reg d.slo_id then reg else reg ++ [d]

/-- Key lookup in the in-memory `self.slos` dict. -/
def dict_hasKey (m : List (String × SLODef)) (k : String) : Bool :=
  m.any fun p => p.1 == k

/-- `self.slos[slo_id] = slo` (line 114): Python dict assignment keeps
the insertion position of an existing key and overwrites its value,
otherwise appends. -/
def dict_set (m : List (String × SLODef)) (k : String) (v : SLODef)
    : List (String × SLODef) :=
  if dict_hasKey m k then m.map fun p => if p.1 == k then (k, v) else p
  else m ++ [(k, v)]

/-- The mutable state touched by `define_slos`: the durable
`slo_definitions` table and the in-memory `self.slos` dict. -/
structure MonitorState where
  registry : List SLODef
  slos : List (String × SLODef)
deriving DecidableEq

/-- The body of the `for slo in slos` loop, lines 104-114. -/
def define_step (st : MonitorState) (d : SLODef) : MonitorState :=
  ⟨registry_insert st.registry d, dict_set st.slos d.slo_id d⟩

/-- `define_slos`, lines 73-117: registers the fixed catalog. -/
def define_slos (st : MonitorState) : MonitorState :=
  slos_catalog.foldl define_step st

/-- Every dict entry stored under key `k` is exactly `(k, v)`. -/
def dict_canon (m : List (String × SLODef)) (k : String) (v : SLODef) : Prop :=
  ∀ p ∈ m, p.1 = k → p = (k, v)

/-- The definition `d` is fully registered in a state: its key is in
the `slo_definitions` table, and the `self.slos` dict maps its key to
exactly `d`. -/
def registered (st : MonitorState) (d : SLODef) : Prop :=
  hasKey st.registry d.slo_id = true ∧
    dict_hasKey st.slos d.slo_id = true ∧
    dict_canon st.slos d.slo_id d

/-- C1 (counterexample): on the samples `[80, 60, 40]` the estimator
returns `40 / 3`, not the claimed `20 = (80 - 40) / (3 - 1)`: the
source divides the budget change by `len(measurements)`, not by
`len(measurements) - 1`. -/
theorem calculate_burn_rate_80_60_40_ne_20 :
    calculate_burn_rate [80, 60, 40] = 40 / 3 ∧ (40 / 3 : ℚ) ≠ 20 := by
  constructor
  · norm_num [calculate_burn_rate]
  · norm_num

/-- C1 (amended): for every sequence with at least two samples the
estimator returns `(oldest - newest) / sample_count` (division by the
number of samples, not by `sample_count - 1`); on `[80, 60, 40]` it
returns `40 / 3`. -/
theorem calculate_burn_rate_divides_by_sample_count :
    (∀ (x y : ℚ) (ms : List ℚ),
       calculate_burn_rate (x :: ms ++ [y]) = (x - y) / ((ms.length : ℚ) + 2)) ∧
    calculate_burn_rate [80, 60, 40] = 40 / 3 := by
  constructor
  · intro x y ms
    have h2 : (x :: ms ++ [y]).getLastD 0 = y := by
      rw [show x :: ms ++ [y] = (x :: ms) ++ [y] from rfl, List.getLastD_concat]
    have hlen : (x :: ms ++ [y]).length = ms.length + 2 := by simp
    have h3 : (x :: ms ++ [y]).headD 0 = x := rfl
    unfold calculate_burn_rate
    rw [hlen, h2, h3, if_neg (by omega)]
    push_cast
    ring
  · norm_num [calculate_burn_rate]

/-- C6: with fewer than two samples the burn-rate estimator returns
exactly `0` (it is a total function of the sample list; no error is
possible). -/
theorem calculate_burn_rate_insufficient_samples :
    ∀ ms : List ℚ, ms.length < 2 → calculate_burn_rate ms = 0 := by
  intro ms h
  simp [calculate_burn_rate, h]

theorem calculate_burn_rate_insufficient_samples_witness :
    ([] : List ℚ).length < 2 ∧ calculate_burn_rate [] = 0 :=
  ⟨by decide, calculate_burn_rate_insufficient_samples [] (by decide)⟩

/-- C2 (counterexample): the calculator silently accepts
`success_count = 1500 > total_count = 1000` (reachable with
`success_rate = 150`) and returns a result instead of failing with
`InvalidMeasurement`. -/
theorem error_budget_calc_accepts_oversized_success :
    error_budget_calc (999/10) 1000 1500 = .ok (150, 50100) ∧ (1000 : ℚ) < 1500 := by
  constructor
  · norm_num [error_budget_calc]
  · norm_num

/-- C2 (amended): the source performs no input validation and defines
no `InvalidMeasurement` error: for every `total ≠ 0` and
`target ≠ 100` it returns a result, including when
`success_count > total_count` or `success_count < 0`; the only
failures are the two unguarded zero divisions. -/
theorem error_budget_calc_never_invalid_measurement :
    ∀ target total success : ℚ, total ≠ 0 → target ≠ 100 →
      ∃ out, error_budget_calc target total success = .ok out := by
  intro target total success ht htar
  have hall : total * (1 - target / 100) ≠ 0 := by
    refine mul_ne_zero ht fun h => htar ?_
    field_simp at h
    linarith
  refine ⟨(success / total * 100,
           (total * (1 - target / 100) - (total - success)) /
             (total * (1 - target / 100)) * 100), ?_⟩
  simp [error_budget_calc, ht, hall]

theorem error_budget_calc_never_invalid_measurement_witness :
    (1000 : ℚ) ≠ 0 ∧ (999/10 : ℚ) ≠ 100 ∧
      ∃ out, error_budget_calc (999/10) 1000 1500 = .ok out :=
  ⟨by norm_num, by norm_num,
   error_budget_calc_never_invalid_measurement (999/10) 1000 1500
     (by norm_num) (by norm_num)⟩

/-- C3 (counterexample): with `target = 100` (so `allowed_errors = 0`)
and `actual_errors = 1 > 0`, the calculator does not return the
claimed guarded value `0`: the division is unguarded and the
computation fails with a zero-division error. -/
theorem error_budget_calc_target_100_zero_division :
    error_budget_calc 100 1000 999 = .error .zeroDivision := by
  norm_num [error_budget_calc]

/-- C3 (amended): there is no guard for `allowed_errors = 0`: whenever
`target = 100` the calculator fails with a zero-division error
(Python `ZeroDivisionError`) for every `total` and `success`; it
never returns `0` or `100` in that case. -/
theorem error_budget_calc_allowed_zero_unguarded :
    ∀ total success : ℚ, error_budget_calc 100 total success = .error .zeroDivision := by
  intro total success
  by_cases h : total = 0
  · simp [error_budget_calc, h]
  · norm_num [error_budget_calc, h]

/-- C5 (counterexample): for `target = 99.9`, `total = 1000`,
`success = 995` the calculator returns
`error_budget_remaining = -400` (exactly, in the rational model of
the float arithmetic: `allowed = 1`, `actual = 5`,
`(1 - 5) / 1 * 100 = -400`), not the claimed `-300`. -/
theorem error_budget_calc_995_returns_minus_400 :
    error_budget_calc (999/10) 1000 995 = .ok (199/2, -400) ∧ (-400 : ℚ) ≠ -300 := by
  constructor
  · norm_num [error_budget_calc]
  · norm_num

/-- C5 (amended): for every valid input with `0 ≤ success ≤ total`,
`0 < total` and `0 < target < 100` (strictly below `100`: at
`target = 100` the unguarded division fails instead of returning),
the calculator returns `current_slo ∈ [0, 100]` and
`error_budget_remaining ≤ 100`; the value is not clamped below: at
`target = 99.9`, `total = 1000`, `success = 995` it is exactly
`-400`. -/
theorem error_budget_calc_range_unclamped :
    (∀ target total success : ℚ,
       0 ≤ success → success ≤ total → 0 < total → 0 < target → target < 100 →
       ∃ slo budget,
         error_budget_calc target total success = .ok (slo, budget) ∧
         0 ≤ slo ∧ slo ≤ 100 ∧ budget ≤ 100) ∧
    error_budget_calc (999/10) 1000 995 = .ok (199/2, -400) := by
  constructor
  · intro target total success hs hst ht htar0 htar100
    have htne : total ≠ 0 := ne_of_gt ht
    have hallpos : 0 < total * (1 - target / 100) := by
      refine mul_pos ht ?_
      have h1 : target / 100 < 1 := (div_lt_one (by norm_num)).mpr htar100
      linarith
    have hallne : total * (1 - target / 100) ≠ 0 := ne_of_gt hallpos
    refine ⟨success / total * 100,
            (total * (1 - target / 100) - (total - success)) /
              (total * (1 - target / 100)) * 100, ?_, ?_, ?_, ?_⟩
    · simp [error_budget_calc, htne, hallne]
    · have h1 : 0 ≤ success / total := div_nonneg hs (le_of_lt ht)
      linarith
    · have h1 : success / total ≤ 1 := (div_le_one ht).mpr hst
      linarith
    · have h1 : (total * (1 - target / 100) - (total - success)) /
          (total * (1 - target / 100)) ≤ 1 :=
        (div_le_one hallpos).mpr (by linarith)
      linarith
  · norm_num [error_budget_calc]

/-- C7: for fixed `target` and `total` with `allowed_errors > 0`, the
remaining budget is strictly decreasing in `actual_errors`: a run
with fewer successes (hence more actual errors) yields a strictly
smaller `error_budget_remaining`. -/
theorem error_budget_calc_strict_antitone_in_errors :
    ∀ target total s1 s2 slo1 b1 slo2 b2 : ℚ,
      0 < total * (1 - target / 100) →
      s2 < s1 →
      error_budget_calc target total s1 = .ok (slo1, b1) →
      error_budget_calc target total s2 = .ok (slo2, b2) →
      b2 < b1 := by
  intro target total s1 s2 slo1 b1 slo2 b2 hall hs h1 h2
  have htne : total ≠ 0 := by
    intro h
    rw [h] at hall
    simp at hall
  have hallne : total * (1 - target / 100) ≠ 0 := ne_of_gt hall
  simp only [error_budget_calc, if_neg htne, if_neg hallne,
    Except.ok.injEq, Prod.mk.injEq] at h1 h2
  obtain ⟨-, hb1⟩ := h1
  obtain ⟨-, hb2⟩ := h2
  rw [← hb1, ← hb2]
  have hdiv : (total * (1 - target / 100) - (total - s2)) /
        (total * (1 - target / 100)) <
      (total * (1 - target / 100) - (total - s1)) /
        (total * (1 - target / 100)) := by
    rw [div_lt_div_iff₀ hall hall]
    exact mul_lt_mul_of_pos_right (by linarith) hall
  linarith

theorem error_budget_calc_strict_antitone_in_errors_witness :
    (0 : ℚ) < 1000 * (1 - (999/10) / 100) ∧ (995 : ℚ) < 999 ∧
      error_budget_calc (999/10) 1000 999 = .ok (999/10, 0) ∧
      error_budget_calc (999/10) 1000 995 = .ok (199/2, -400) ∧
      (-400 : ℚ) < 0 :=
  ⟨by norm_num, by norm_num, by norm_num [error_budget_calc],
   by norm_num [error_budget_calc],
   error_budget_calc_strict_antitone_in_errors (999/10) 1000 999 995
     (999/10) 0 (199/2) (-400) (by norm_num) (by norm_num)
     (by norm_num [error_budget_calc]) (by norm_num [error_budget_calc])⟩

/-- The alert log produced by one evaluation is the input log followed
by the (up to three) fired alerts, in check order. -/
lemma check_slo_alerts_eq (m : Measurement) (history : List ℚ) (log : List Alert) :
    check_slo_alerts m history log =
      log
      ++ (if m.current_slo < m.target
          then [⟨m.slo_id, "high", 0, AlertKind.targetViolation⟩] else [])
      ++ (if m.error_budget < 20
          then [⟨m.slo_id, if m.error_budget < 10 then "critical" else "high",
                 0, AlertKind.budgetLow⟩] else [])
      ++ (if calculate_burn_rate history > 5
          then [⟨m.slo_id, "critical", calculate_burn_rate history,
                 AlertKind.burnRateHigh⟩] else []) := by
  unfold check_slo_alerts
  split_ifs <;> simp [*]

/-- C4: one evaluation appends to the alert log exactly the alerts of
the three independent checks, in this fixed order: (1) a `high`
`target_violation` alert with burn-rate field `0` when
`current_slo < target`; (2) a `budget_low` alert when
`error_budget_remaining < 20`, `critical` when below `10` and `high`
otherwise; (3) a `critical` `burn_rate_high` alert carrying the
computed rate when the computed burn rate exceeds `5`; any subset of
the three may co-fire. -/
theorem check_slo_alerts_rules :
    ∀ (m : Measurement) (history : List ℚ) (log : List Alert),
      check_slo_alerts m history log =
        log
        ++ (if m.current_slo < m.target
            then [⟨m.slo_id, "high", 0, AlertKind.targetViolation⟩] else [])
        ++ (if m.error_budget < 20
            then [⟨m.slo_id, if m.error_budget < 10 then "critical" else "high",
                   0, AlertKind.budgetLow⟩] else [])
        ++ (if calculate_burn_rate history > 5
            then [⟨m.slo_id, "critical", calculate_burn_rate history,
                   AlertKind.burnRateHigh⟩] else []) :=
  fun m history log => check_slo_alerts_eq m history log

/-- C9: every alert appended by an evaluation has severity `high` or
`critical`; the severity `warning` is never produced, for any
input. -/
theorem check_slo_alerts_severity_invariant :
    ∀ (m : Measurement) (history : List ℚ) (log : List Alert) (a : Alert),
      a ∈ check_slo_alerts m history log →
      a ∈ log ∨
        ((a.severity = "high" ∨ a.severity = "critical") ∧ a.severity ≠ "warning") := by
  intro m history log a ha
  rw [check_slo_alerts_eq] at ha
  simp only [List.mem_append] at ha
  rcases ha with ((ha | ha) | ha) | ha
  · exact Or.inl ha
  · right
    split_ifs at ha <;> simp_all
  · right
    split_ifs at ha <;> simp_all
  · right
    split_ifs at ha <;> simp_all

theorem check_slo_alerts_severity_invariant_witness :
    (⟨"api-success-rate", "high", 0, .targetViolation⟩ : Alert) ∈
        check_slo_alerts ⟨"api-success-rate", 98, 999/10, 50, 0, 0⟩ [] [] ∧
      ((⟨"api-success-rate", "high", 0, .targetViolation⟩ : Alert) ∈ ([] : List Alert) ∨
        ((("high" : String) = "high" ∨ ("high" : String) = "critical") ∧
          ("high" : String) ≠ "warning")) :=
  ⟨by norm_num [check_slo_alerts, calculate_burn_rate],
   check_slo_alerts_severity_invariant ⟨"api-success-rate", 98, 999/10, 50, 0, 0⟩
     [] [] ⟨"api-success-rate", "high", 0, .targetViolation⟩
     (by norm_num [check_slo_alerts, calculate_burn_rate])⟩

/-- C10: for `0 ≤ success_rate ≤ 100`, every measurement produced by
the measurement routine has `total_count = 1000` and
`success_count = ⌊1000 * success_rate / 100⌋`, hence
`0 ≤ success_count ≤ total_count`, and its recorded `current_slo`
never exceeds the requested rate. -/
theorem simulate_measurements_counts :
    ∀ (slo_id : String) (target rate : ℚ) (m : Measurement),
      0 ≤ rate → rate ≤ 100 →
      simulate_measurements slo_id target rate = .ok m →
      m.total_count = 1000 ∧ m.success_count = ⌊(1000 : ℚ) * rate / 100⌋ ∧
        0 ≤ m.success_count ∧ m.success_count ≤ m.total_count ∧
        m.current_slo ≤ rate := by
  intro slo_id target rate m h0 h100 hok
  have hq0 : (0 : ℚ) ≤ ((1000 : ℤ) : ℚ) * (rate / 100) :=
    mul_nonneg (by norm_num) (div_nonneg h0 (by norm_num))
  have hsucc : pytrunc (((1000 : ℤ) : ℚ) * (rate / 100)) =
      ⌊((1000 : ℤ) : ℚ) * (rate / 100)⌋ := by
    unfold pytrunc
    rw [if_pos hq0]
  simp only [simulate_measurements] at hok
  split at hok
  · simp at hok
  · rename_i slo budget heq
    simp only [Except.ok.injEq] at hok
    subst hok
    simp only [error_budget_calc] at heq
    split at heq
    · simp at heq
    · split at heq
      · simp at heq
      · simp only [Except.ok.injEq, Prod.mk.injEq] at heq
        obtain ⟨hslo, -⟩ := heq
        refine ⟨rfl, ?_, ?_, ?_, ?_⟩
        · show pytrunc (((1000 : ℤ) : ℚ) * (rate / 100)) = _
          rw [hsucc]
          congr 1
          push_cast
          ring
        · show (0 : ℤ) ≤ pytrunc (((1000 : ℤ) : ℚ) * (rate / 100))
          rw [hsucc]
          exact Int.floor_nonneg.mpr hq0
        · show pytrunc (((1000 : ℤ) : ℚ) * (rate / 100)) ≤ (1000 : ℤ)
          rw [hsucc]
          have h1 : ((1000 : ℤ) : ℚ) * (rate / 100) ≤ ((1000 : ℤ) : ℚ) := by
            push_cast
            linarith
          calc ⌊((1000 : ℤ) : ℚ) * (rate / 100)⌋
              ≤ ⌊((1000 : ℤ) : ℚ)⌋ := Int.floor_le_floor h1
            _ = 1000 := Int.floor_intCast 1000
        · show Measurement.current_slo _ ≤ rate
          rw [← hslo]
          have hfl : ((pytrunc (((1000 : ℤ) : ℚ) * (rate / 100)) : ℤ) : ℚ) ≤
              ((1000 : ℤ) : ℚ) * (rate / 100) := by
            rw [hsucc]
            exact Int.floor_le _
          push_cast at hfl ⊢
          linarith

theorem simulate_measurements_counts_witness :
    (0 : ℚ) ≤ 50 ∧ (50 : ℚ) ≤ 100 ∧
      simulate_measurements "api-success-rate" (999/10) 50 =
        .ok ⟨"api-success-rate", 50, 999/10, -49900, 500, 1000⟩ ∧
      ((1000 : ℤ) = 1000 ∧ (500 : ℤ) = ⌊(1000 : ℚ) * 50 / 100⌋ ∧
        (0 : ℤ) ≤ 500 ∧ (500 : ℤ) ≤ 1000 ∧ (50 : ℚ) ≤ 50) :=
  ⟨by norm_num, by norm_num,
   by norm_num [simulate_measurements, pytrunc, error_budget_calc],
   simulate_measurements_counts "api-success-rate" (999/10) 50
     ⟨"api-success-rate", 50, 999/10, -49900, 500, 1000⟩
     (by norm_num) (by norm_num)
     (by norm_num [simulate_measurements, pytrunc, error_budget_calc])⟩

theorem error_budget_calc_range_unclamped_witness :
    (0 : ℚ) ≤ 995 ∧ (995 : ℚ) ≤ 1000 ∧ (0 : ℚ) < 1000 ∧ (0 : ℚ) < 999/10 ∧
      (999/10 : ℚ) < 100 ∧
      ∃ slo budget, error_budget_calc (999/10) 1000 995 = .ok (slo, budget) ∧
        0 ≤ slo ∧ slo ≤ 100 ∧ budget ≤ 100 :=
  ⟨by norm_num, by norm_num, by norm_num, by norm_num, by norm_num,
   error_budget_calc_range_unclamped.1 (999/10) 1000 995 (by norm_num)
     (by norm_num) (by norm_num) (by norm_num) (by norm_num)⟩

lemma hasKey_registry_insert_self (reg : List SLODef) (d : SLODef) :
    hasKey (registry_insert reg d) d.slo_id = true := by
  unfold registry_insert
  split
  · assumption
  · simp [hasKey]

lemma hasKey_registry_insert_mono (reg : List SLODef) (d : SLODef) (k : String)
    (h : hasKey reg k = true) : hasKey (registry_insert reg d) k = true := by
  unfold registry_insert
  split
  · exact h
  · simp only [hasKey, List.any_eq_true] at h ⊢
    obtain ⟨x, hx, he⟩ := h
    exact ⟨x, List.mem_append_left _ hx, he⟩

lemma registry_insert_of_hasKey (reg : List SLODef) (d : SLODef)
    (h : hasKey reg d.slo_id = true) : registry_insert reg d = reg := by
  unfold registry_insert
  rw [if_pos h]

lemma dict_canon_set_self (m : List (String × SLODef)) (k : String) (v : SLODef) :
    dict_canon (dict_set m k v) k v := by
  unfold dict_set
  split
  · intro p hp hk
    simp only [List.mem_map] at hp
    obtain ⟨q, hq, rfl⟩ := hp
    by_cases hqk : (q.1 == k) = true
    · rw [if_pos hqk]
    · exfalso
      rw [if_neg hqk] at hk
      exact hqk (by simp [hk])
  · rename_i hnk
    intro p hp hk
    rcases List.mem_append.mp hp with hp | hp
    · exfalso
      refine hnk ?_
      unfold dict_hasKey
      rw [List.any_eq_true]
      exact ⟨p, hp, by simp [hk]⟩
    · simpa using hp

lemma dict_canon_set_other (m : List (String × SLODef)) (k : String) (v : SLODef)
    (k1 : String) (v1 : SLODef) (hne : k1 ≠ k) (h : dict_canon m k v) :
    dict_canon (dict_set m k1 v1) k v := by
  unfold dict_set
  split
  · intro p hp hk
    simp only [List.mem_map] at hp
    obtain ⟨q, hq, rfl⟩ := hp
    by_cases hqk : (q.1 == k1) = true
    · rw [if_pos hqk] at hk ⊢
      exact absurd hk hne
    · rw [if_neg hqk] at hk ⊢
      exact h q hq hk
  · intro p hp hk
    rcases List.mem_append.mp hp with hp | hp
    · exact h p hp hk
    · exfalso
      simp only [List.mem_singleton] at hp
      rw [hp] at hk
      exact hne hk

lemma dict_hasKey_set_self (m : List (String × SLODef)) (k : String) (v : SLODef) :
    dict_hasKey (dict_set m k v) k = true := by
  unfold dict_set
  split
  · rename_i h
    unfold dict_hasKey at h ⊢
    rw [List.any_eq_true] at h ⊢
    obtain ⟨q, hq, he⟩ := h
    refine ⟨if q.1 == k then (k, v) else q, List.mem_map.mpr ⟨q, hq, rfl⟩, ?_⟩
    rw [if_pos he]
    simp
  · unfold dict_hasKey
    rw [List.any_eq_true]
    exact ⟨(k, v), List.mem_append_right _ (by simp), by simp⟩

lemma dict_hasKey_set_mono (m : List (String × SLODef)) (k : String) (v : SLODef)
    (k1 : String) (h : dict_hasKey m k1 = true) :
    dict_hasKey (dict_set m k v) k1 = true := by
  unfold dict_set
  split
  · unfold dict_hasKey at h ⊢
    rw [List.any_eq_true] at h ⊢
    obtain ⟨q, hq, he⟩ := h
    refine ⟨if q.1 == k then (k, v) else q, List.mem_map.mpr ⟨q, hq, rfl⟩, ?_⟩
    by_cases hqk : (q.1 == k) = true
    · rw [if_pos hqk]
      simp only [beq_iff_eq] at he hqk ⊢
      rw [← hqk, he]
    · rw [if_neg hqk]
      exact he
  · unfold dict_hasKey at h ⊢
    rw [List.any_eq_true] at h ⊢
    obtain ⟨q, hq, he⟩ := h
    exact ⟨q, List.mem_append_left _ hq, he⟩

lemma dict_set_of_canon (m : List (String × SLODef)) (k : String) (v : SLODef)
    (hk : dict_hasKey m k = true) (hc : dict_canon m k v) : dict_set m k v = m := by
  unfold dict_set
  rw [if_pos hk]
  have hfix : ∀ p ∈ m, (if p.1 == k then (k, v) else p) = p := by
    intro p hp
    by_cases hpk : (p.1 == k) = true
    · rw [if_pos hpk]
      exact (hc p hp (by simpa using hpk)).symm
    · rw [if_neg hpk]
  calc m.map (fun p => if p.1 == k then (k, v) else p) = m.map id :=
        List.map_congr_left hfix
    _ = m := List.map_id m

lemma registered_define_step_self (st : MonitorState) (d : SLODef) :
    registered (define_step st d) d :=
  ⟨hasKey_registry_insert_self _ _, dict_hasKey_set_self _ _ _,
   dict_canon_set_self _ _ _⟩

lemma registered_define_step_other (st : MonitorState) (d1 d : SLODef)
    (hne : d1.slo_id ≠ d.slo_id) (h : registered st d) :
    registered (define_step st d1) d :=
  ⟨hasKey_registry_insert_mono _ _ _ h.1,
   dict_hasKey_set_mono _ _ _ _ h.2.1,
   dict_canon_set_other _ _ _ _ _ hne h.2.2⟩

lemma define_step_of_registered (st : MonitorState) (d : SLODef)
    (h : registered st d) : define_step st d = st := by
  obtain ⟨h1, h2, h3⟩ := h
  cases st with
  | mk reg slos =>
    unfold define_step
    rw [MonitorState.mk.injEq]
    exact ⟨registry_insert_of_hasKey reg d h1, dict_set_of_canon slos d.slo_id d h2 h3⟩

lemma define_slos_eq (st : MonitorState) :
    define_slos st =
      define_step (define_step (define_step st slo_db_availability)
        slo_query_latency) slo_api_success_rate := rfl

lemma registered_after_define_slos (st : MonitorState) :
    registered (define_slos st) slo_db_availability ∧
      registered (define_slos st) slo_query_latency ∧
      registered (define_slos st) slo_api_success_rate := by
  rw [define_slos_eq]
  refine ⟨?_, ?_, ?_⟩
  · apply registered_define_step_other _ _ _ (by decide)
    apply registered_define_step_other _ _ _ (by decide)
    exact registered_define_step_self _ _
  · apply registered_define_step_other _ _ _ (by decide)
    exact registered_define_step_self _ _
  · exact registered_define_step_self _ _

/-- C8: inserting a definition whose `slo_id` already exists leaves
the `slo_definitions` registry unchanged (ON CONFLICT DO NOTHING:
first writer wins), and running the `define_slos` bootstrap twice
from any state leaves both the registry and the in-memory `slos`
dict equal to running it once. -/
theorem define_slos_first_writer_wins :
    (∀ (reg : List SLODef) (d : SLODef), hasKey reg d.slo_id = true →
       registry_insert reg d = reg) ∧
    (∀ st : MonitorState, define_slos (define_slos st) = define_slos st) := by
  constructor
  · exact registry_insert_of_hasKey
  · intro st
    obtain ⟨h1, h2, h3⟩ := registered_after_define_slos st
    rw [define_slos_eq (define_slos st), define_step_of_registered _ _ h1,
      define_step_of_registered _ _ h2, define_step_of_registered _ _ h3]

theorem define_slos_first_writer_wins_witness :
    hasKey [slo_db_availability]
        (SLODef.mk "db-availability" "database" "availability" 50 1 "changed").slo_id
        = true ∧
      registry_insert [slo_db_availability]
        (SLODef.mk "db-availability" "database" "availability" 50 1 "changed") =
        [slo_db_availability] ∧
      define_slos (define_slos ⟨[], []⟩) = define_slos ⟨[], []⟩ :=
  ⟨by decide,
   define_slos_first_writer_wins.1 _ _ (by decide),
   define_slos_first_writer_wins.2 ⟨[], []⟩⟩
